import Mathlib

/-!
# Verification of `Ros2RangeFinder.cpp` (webots_ros2_driver)

A shallow embedding of the range-finder plugin
`src/webots_ros2_driver/src/plugins/static/Ros2RangeFinder.cpp`.

Modelling conventions:
* 32-bit floats that enter arithmetic (depth values, calibration constants)
  are modelled as exact rationals `ℚ`; machine byte patterns (for the
  byte-for-byte depth-image copy) are modelled as `ℕ` values below `2^32`.
* The C call `tan(0.5 * fov)` is a transcendental computed by `libm`; the
  embedding takes its value as an explicit rational parameter `tanHalfFov`.
  For the concrete scenario `fov = π/2` the parameter is `1`, justified by
  `Real.tan_pi_div_four`.
* The point-cloud buffer `mPointCloudMessage.data` (a byte vector of size
  `12·width·height`) is modelled as a `List ℚ` of `3·width·height` floats;
  the in-place writes `memcpy(data + idx*3 + k, ...)` become `List.set` at
  index `idx*3 + k`.
* The ROS publishers, clock and `preStep` scheduling live outside this
  file's source and are out of scope per the spec; a tick of `step()` is a
  call that passed `preStep`.  Issued sensor commands (`enable`/`disable`)
  and publications handed to the transport are collected as explicit lists.
-/

/-- Commands issued to the external range-finder handle
(`mRangeFinder->enable(...)` / `mRangeFinder->disable()`). -/
inductive Command where
  | enable
  | disable
deriving DecidableEq, Repr

/-- Artifacts handed to the transport during one tick
(`mImagePublisher->publish`, `mPointCloudPublisher->publish`). -/
inductive Pub where
  | image
  | pointCloud
deriving DecidableEq, Repr

/-- `focalLengthX = 0.5 * width * (1 / tan(0.5 * fov))`
(Ros2RangeFinder.cpp line 54), with `tanHalfFov` standing for the value of
`tan(0.5 * fov)`. -/
def focalLengthX (width : ℕ) (tanHalfFov : ℚ) : ℚ :=
  (1 / 2 : ℚ) * width * (1 / tanHalfFov)

/-- `focalLengthY = 0.5 * height * (1 / tan(0.5 * fov))`
(Ros2RangeFinder.cpp line 55). -/
def focalLengthY (height : ℕ) (tanHalfFov : ℚ) : ℚ :=
  (1 / 2 : ℚ) * height * (1 / tanHalfFov)

/-- Principal point x: `(double)width / 2` (Ros2RangeFinder.cpp line 59). -/
def principalPointX (width : ℕ) : ℚ := (width : ℚ) / 2

/-- Principal point y: `(double)height / 2` (Ros2RangeFinder.cpp line 60). -/
def principalPointY (height : ℕ) : ℚ := (height : ℚ) / 2

/-- The `sensor_msgs::msg::CameraInfo` fields filled by `init`
(Ros2RangeFinder.cpp lines 51-65).  Matrices are stored exactly as the code
stores them: flat row-major lists. -/
structure CameraInfo where
  width : ℕ
  height : ℕ
  distortionModel : String
  d : List ℚ
  r : List ℚ
  k : List ℚ
  p : List ℚ
deriving DecidableEq, Repr

/-- The camera-info record built once in `init`
(Ros2RangeFinder.cpp lines 51-65). -/
def makeCameraInfo (width height : ℕ) (tanHalfFov : ℚ) : CameraInfo :=
  { width := width
    height := height
    distortionModel := "plumb_bob"
    d := [0, 0, 0, 0, 0]
    r := [1, 0, 0, 0, 1, 0, 0, 0, 1]
    k := [focalLengthX width tanHalfFov, 0, principalPointX width,
          0, focalLengthY height tanHalfFov, principalPointY height,
          0, 0, 1]
    p := [focalLengthX width tanHalfFov, 0, principalPointX width, 0,
          0, focalLengthY height tanHalfFov, principalPointY height, 0,
          0, 0, 1, 0] }

/-- One pixel of the back-projection loop body
(Ros2RangeFinder.cpp lines 156-159): reads `cx = k[2]`, `cy = k[5]`,
`fx = k[0]`, `fy = k[4]` and computes
`x = image[idx]`, `y = -(i - cx) * x / fx`, `z = -(j - cy) * x / fy`. -/
def projectPoint (info : CameraInfo) (image : List ℚ) (i j : ℕ) : ℚ × ℚ × ℚ :=
  let cx : ℚ := info.k.getD 2 0
  let cy : ℚ := info.k.getD 5 0
  let fx : ℚ := info.k.getD 0 0
  let fy : ℚ := info.k.getD 4 0
  let idx := i + j * info.width
  let x := image.getD idx 0
  (x, -((i : ℚ) - cx) * x / fx, -((j : ℚ) - cy) * x / fy)

/-- The three `memcpy(data + idx*3 + k, ...)` writes of one pixel
(Ros2RangeFinder.cpp lines 160-162). -/
def writePoint (buf : List ℚ) (idx : ℕ) (x y z : ℚ) : List ℚ :=
  ((buf.set (idx * 3) x).set (idx * 3 + 1) y).set (idx * 3 + 2) z

/-- The double loop of `publishPointCloud` (Ros2RangeFinder.cpp lines
152-164), writing every pixel's point into the reused buffer `buf`
(the float view of `mPointCloudMessage.data`). -/
def projectPointCloudInto (info : CameraInfo) (image : List ℚ) (buf : List ℚ) :
    List ℚ :=
  (List.range info.height).foldl (fun b j =>
    (List.range info.width).foldl (fun b2 i =>
      let pt := projectPoint info image i j
      writePoint b2 (i + j * info.width) pt.1 pt.2.1 pt.2.2) b) buf

/-- Read indices `idx = i + j*width` touched by the loop, in program order
(Ros2RangeFinder.cpp lines 152-157). -/
def pointCloudReadIndices (width height : ℕ) : List ℕ :=
  (List.range height).flatMap (fun j => (List.range width).map (fun i => i + j * width))

/-- Float-buffer write offsets `idx*3`, `idx*3+1`, `idx*3+2` touched by the
loop, in program order (Ros2RangeFinder.cpp lines 160-162). -/
def pointCloudWriteIndices (width height : ℕ) : List ℕ :=
  (pointCloudReadIndices width height).flatMap
    (fun idx => [idx * 3, idx * 3 + 1, idx * 3 + 2])

/-- The plugin state: the `mAlwaysOn` configuration bit, the `mIsEnabled`
flag, the camera-info record fixed at `init`, and the two owned, reused
artifact buffers (`mImageMessage.data` viewed as `width·height` float
pixels, `mPointCloudMessage.data` viewed as `3·width·height` floats). -/
structure DriverState where
  alwaysOn : Bool
  isEnabled : Bool
  info : CameraInfo
  imageData : List ℚ
  pointCloudData : List ℚ
deriving DecidableEq, Repr

/-- `Ros2RangeFinder::publishImage` (Ros2RangeFinder.cpp lines 122-131):
if the raw range image is null nothing happens; otherwise the raw buffer is
copied into `mImageMessage.data` (a `memcpy` of `4·width·height` bytes,
i.e. the first `width·height` pixels) and the image is published. -/
def publishImage (raw : Option (List ℚ)) (s : DriverState) :
    DriverState × List Pub :=
  match raw with
  | none => (s, [])
  | some image =>
      ({ s with imageData :=
          (List.range (s.info.width * s.info.height)).map (fun n => image.getD n 0) },
       [Pub.image])

/-- `Ros2RangeFinder::publishPointCloud` (Ros2RangeFinder.cpp lines
134-167): if the raw range image is null nothing happens; otherwise every
pixel's back-projected point is written into the reused buffer and the
point cloud is published. -/
def publishPointCloud (raw : Option (List ℚ)) (s : DriverState) :
    DriverState × List Pub :=
  match raw with
  | none => (s, [])
  | some image =>
      ({ s with pointCloudData := projectPointCloudInto s.info image s.pointCloudData },
       [Pub.pointCloud])

/-- The publishing half of `Ros2RangeFinder::step`
(Ros2RangeFinder.cpp lines 102-105): publish only when `mIsEnabled`. -/
def stepPublish (s : DriverState) (raw : Option (List ℚ)) :
    DriverState × List Pub :=
  if s.isEnabled then
    let ri := publishImage raw s
    let rp := publishPointCloud raw ri.1
    (rp.1, ri.2 ++ rp.2)
  else (s, [])

/-- The enable/disable half of `Ros2RangeFinder::step`
(Ros2RangeFinder.cpp lines 107-119): return early when `mAlwaysOn`;
otherwise compare `shouldBeEnabled = subscription count > 0` with
`mIsEnabled` and issue a command only when they differ. -/
def stepToggle (s : DriverState) (subscriptionCount : ℕ) :
    DriverState × List Command :=
  if s.alwaysOn then (s, [])
  else
    let shouldBeEnabled := decide (subscriptionCount > 0)
    if shouldBeEnabled = s.isEnabled then (s, [])
    else ({ s with isEnabled := shouldBeEnabled },
          [if shouldBeEnabled then Command.enable else Command.disable])

/-- What one tick hands to the outside world: sensor commands and
published artifacts. -/
structure StepOutput where
  commands : List Command
  published : List Pub
deriving DecidableEq, Repr

/-- `Ros2RangeFinder::step` (Ros2RangeFinder.cpp lines 97-120) for a tick
that passed `preStep`: publish first (based on the current `mIsEnabled`),
then re-evaluate demand and toggle the sensor. -/
def step (s : DriverState) (subscriptionCount : ℕ) (raw : Option (List ℚ)) :
    DriverState × StepOutput :=
  let rp := stepPublish s raw
  let rt := stepToggle rp.1 subscriptionCount
  (rt.1, ⟨rt.2, rp.2⟩)

/-- `Ros2RangeFinder::init` (Ros2RangeFinder.cpp lines 22-95): `mIsEnabled`
starts false, both artifact buffers are allocated zero-filled
(`data.resize(4*width*height)` and `data.resize(width*12*height)`), and if
`mAlwaysOn` the sensor is enabled immediately and the flag set.  Returns
the initial state and the commands issued during initialization. -/
def initState (alwaysOn : Bool) (info : CameraInfo) :
    DriverState × List Command :=
  let s : DriverState :=
    { alwaysOn := alwaysOn
      isEnabled := false
      info := info
      imageData := List.replicate (info.width * info.height) 0
      pointCloudData := List.replicate (3 * (info.width * info.height)) 0 }
  if alwaysOn then ({ s with isEnabled := true }, [Command.enable])
  else (s, [])

/-- Run a sequence of ticks; each input is a subscription count and the
raw buffer available that tick.  Returns the final state and the per-tick
outputs in order. -/
def runTicks (s : DriverState) :
    List (ℕ × Option (List ℚ)) → DriverState × List StepOutput
  | [] => (s, [])
  | inp :: rest =>
      let r1 := step s inp.1 inp.2
      let rr := runTicks r1.1 rest
      (rr.1, r1.2 :: rr.2)

/-- Effect of one issued command on the external sensor's enabled state. -/
def applyCommand : Bool → Command → Bool
  | _, Command.enable => true
  | _, Command.disable => false

/-- Effect of a command sequence on the external sensor's enabled state. -/
def applyCommands (sensor : Bool) (cmds : List Command) : Bool :=
  cmds.foldl applyCommand sensor

/-- Little-endian byte decomposition of one 32-bit pixel pattern, the unit
of the `memcpy` in `publishImage` (`is_bigendian = false`,
Ros2RangeFinder.cpp lines 38-41 and 128). -/
def wordToLEBytes (v : ℕ) : List ℕ :=
  [v % 256, v / 256 % 256, v / 65536 % 256, v / 16777216 % 256]

/-- The depth-image artifact bytes: the raw buffer's 32-bit pixels laid out
byte for byte, little-endian (the `memcpy` of Ros2RangeFinder.cpp line 128
into the `4·width·height`-byte `mImageMessage.data`). -/
def encodeDepthImage (raw : List ℕ) : List ℕ :=
  raw.flatMap wordToLEBytes

/-- Reassemble 32-bit pixel patterns from the artifact's little-endian
bytes (how a consumer reads the published image back). -/
def decodeDepthImage : List ℕ → List ℕ
  | b0 :: b1 :: b2 :: b3 :: rest =>
      (b0 + 256 * b1 + 65536 * b2 + 16777216 * b3) :: decodeDepthImage rest
  | _ => []

/-! ## Helper lemmas about the tick state machine -/

lemma stepPublish_none (s : DriverState) : stepPublish s none = (s, []) := by
  unfold stepPublish publishImage publishPointCloud
  split <;> rfl

lemma stepPublish_isEnabled (s : DriverState) (raw : Option (List ℚ)) :
    (stepPublish s raw).1.isEnabled = s.isEnabled := by
  unfold stepPublish publishImage publishPointCloud
  cases raw <;> dsimp <;> split <;> rfl

lemma stepPublish_alwaysOn (s : DriverState) (raw : Option (List ℚ)) :
    (stepPublish s raw).1.alwaysOn = s.alwaysOn := by
  unfold stepPublish publishImage publishPointCloud
  cases raw <;> dsimp <;> split <;> rfl

lemma stepToggle_imageData (s : DriverState) (c : ℕ) :
    (stepToggle s c).1.imageData = s.imageData := by
  unfold stepToggle
  split
  · rfl
  · dsimp
    split <;> rfl

lemma stepToggle_pointCloudData (s : DriverState) (c : ℕ) :
    (stepToggle s c).1.pointCloudData = s.pointCloudData := by
  unfold stepToggle
  split
  · rfl
  · dsimp
    split <;> rfl

lemma stepToggle_alwaysOn (s : DriverState) (c : ℕ) :
    (stepToggle s c).1.alwaysOn = s.alwaysOn := by
  unfold stepToggle
  split
  · rfl
  · dsimp
    split <;> rfl

lemma stepToggle_commands (s : DriverState) (c : ℕ) :
    (stepToggle s c).2 =
      (if s.isEnabled = (stepToggle s c).1.isEnabled then []
       else if (stepToggle s c).1.isEnabled then [Command.enable]
       else [Command.disable]) := by
  unfold stepToggle
  by_cases h : s.alwaysOn
  · simp [h]
  · by_cases h2 : decide (c > 0) = s.isEnabled
    · simp [h, h2]
    · cases hd : decide (c > 0) <;> cases he : s.isEnabled <;>
        simp_all

lemma stepToggle_sensor (s : DriverState) (c : ℕ) :
    (stepToggle s c).1.isEnabled = applyCommands s.isEnabled (stepToggle s c).2 := by
  unfold stepToggle
  by_cases h : s.alwaysOn
  · simp [h, applyCommands]
  · by_cases h2 : decide (c > 0) = s.isEnabled
    · simp [h, h2, applyCommands]
    · cases hd : decide (c > 0) <;>
        simp_all [applyCommands, applyCommand]

lemma step_commands (s : DriverState) (c : ℕ) (raw : Option (List ℚ)) :
    (step s c raw).2.commands = (stepToggle (stepPublish s raw).1 c).2 := rfl

lemma step_isEnabled (s : DriverState) (c : ℕ) (raw : Option (List ℚ)) :
    (step s c raw).1.isEnabled = (stepToggle (stepPublish s raw).1 c).1.isEnabled := rfl

lemma step_sensor (s : DriverState) (c : ℕ) (raw : Option (List ℚ)) :
    (step s c raw).1.isEnabled =
      applyCommands s.isEnabled (step s c raw).2.commands := by
  rw [step_isEnabled, step_commands, stepToggle_sensor, stepPublish_isEnabled]

lemma step_alwaysOn (s : DriverState) (c : ℕ) (raw : Option (List ℚ)) :
    (step s c raw).1.alwaysOn = s.alwaysOn := by
  show (stepToggle (stepPublish s raw).1 c).1.alwaysOn = s.alwaysOn
  rw [stepToggle_alwaysOn, stepPublish_alwaysOn]

lemma step_commands_of_alwaysOn (s : DriverState) (c : ℕ) (raw : Option (List ℚ))
    (h : s.alwaysOn = true) : (step s c raw).2.commands = [] := by
  rw [step_commands]
  unfold stepToggle
  rw [stepPublish_alwaysOn, h]
  rfl

lemma applyCommands_append (sensor : Bool) (a b : List Command) :
    applyCommands sensor (a ++ b) = applyCommands (applyCommands sensor a) b :=
  List.foldl_append ..

lemma runTicks_sensor :
    ∀ (inputs : List (ℕ × Option (List ℚ))) (s : DriverState),
      (runTicks s inputs).1.isEnabled =
        applyCommands s.isEnabled
          ((runTicks s inputs).2.flatMap StepOutput.commands) := by
  intro inputs
  induction inputs with
  | nil => intro s; simp [runTicks, applyCommands]
  | cons inp rest ih =>
      intro s
      simp only [runTicks, List.flatMap_cons, applyCommands_append]
      rw [ih, step_sensor]

lemma runTicks_commands_of_alwaysOn :
    ∀ (inputs : List (ℕ × Option (List ℚ))) (s : DriverState),
      s.alwaysOn = true →
      ((runTicks s inputs).2.flatMap StepOutput.commands) = [] := by
  intro inputs
  induction inputs with
  | nil => intro s _; simp [runTicks]
  | cons inp rest ih =>
      intro s h
      simp only [runTicks, List.flatMap_cons]
      rw [step_commands_of_alwaysOn s inp.1 inp.2 h,
        ih _ (by rw [step_alwaysOn]; exact h)]
      rfl

lemma step_published (s : DriverState) (c : ℕ) (raw : Option (List ℚ)) :
    (step s c raw).2.published =
      (if s.isEnabled && raw.isSome then [Pub.image, Pub.pointCloud] else []) := by
  show (stepPublish s raw).2 = _
  unfold stepPublish publishImage publishPointCloud
  cases raw <;> cases h : s.isEnabled <;> simp [h]

lemma initState_isEnabled_eq (a : Bool) (info : CameraInfo) :
    (initState a info).1.isEnabled = applyCommands false (initState a info).2 := by
  cases a <;> rfl

/-! ## Claim theorems: activation lifecycle -/

/-- C3: with `alwaysOn = false`, commands are edge-triggered: the
consumer-count sequence `[0, 0, 3, 3, 0]` from the disabled initial state
issues per tick exactly `[[], [], [enable], [], [disable]]` — two commands
in total — and a tick whose demand state (`count > 0`) equals the current
activation flag issues no command at all. -/
theorem C3_edgeTriggered :
    (∀ info : CameraInfo,
      ((runTicks (initState false info).1
          [(0, none), (0, none), (3, none), (3, none), (0, none)]).2.map
            StepOutput.commands) =
        [[], [], [Command.enable], [], [Command.disable]]) ∧
    (∀ (s : DriverState) (c : ℕ) (raw : Option (List ℚ)),
      s.alwaysOn = false → decide (c > 0) = s.isEnabled →
      (step s c raw).2.commands = []) := by
  constructor
  · intro info
    rfl
  · intro s c raw ha hd
    rw [step_commands]
    unfold stepToggle
    rw [stepPublish_alwaysOn, ha, stepPublish_isEnabled]
    simp [hd]

/-- Witness for C3: a concrete tick whose demand state equals the current
activation state (count 0, disabled) issues no command. -/
theorem C3_edgeTriggered_witness :
    (step (initState false (makeCameraInfo 2 1 1)).1 0 none).2.commands = [] :=
  C3_edgeTriggered.2 (initState false (makeCameraInfo 2 1 1)).1 0 none rfl rfl

/-- C4 (amended): demand is evaluated after the publishing phase, so a tick
emits the two artifacts exactly when the activation flag entering the tick
is set and the raw buffer is available; consequently, from the idle state a
first tick with positive consumer count emits nothing and emission begins
on the following tick. -/
theorem C4_demandAfterEmission :
    (∀ (s : DriverState) (c : ℕ) (raw : Option (List ℚ)),
      (step s c raw).2.published =
        (if s.isEnabled && raw.isSome then [Pub.image, Pub.pointCloud] else [])) ∧
    ((step (initState false (makeCameraInfo 2 1 1)).1 3 (some [2, 2])).2.published
        = [] ∧
      (step (step (initState false (makeCameraInfo 2 1 1)).1 3 (some [2, 2])).1
          3 (some [2, 2])).2.published = [Pub.image, Pub.pointCloud]) := by
  refine ⟨step_published, rfl, ?_⟩
  rw [step_published]
  rfl

/-- Counterexample to C4 as stated: on the very tick where the consumer
count first becomes positive (count 3, buffer available) from the idle
state, nothing is published. -/
theorem C4_counterexample :
    (3 : ℕ) > 0 ∧ (some [(2 : ℚ), 2]).isSome = true ∧
    (step (initState false (makeCameraInfo 2 1 1)).1 3 (some [2, 2])).2.published
      = [] :=
  ⟨by decide, rfl, rfl⟩

/-- C5: on a tick where the controller is active but the raw buffer is
null, nothing is published and both owned artifact buffers are unchanged;
and on any tick the published set is all-or-nothing (empty, or exactly the
depth image and the point cloud). -/
theorem C5_skipOnUnavailable :
    (∀ (s : DriverState) (c : ℕ), s.isEnabled = true →
      (step s c none).2.published = [] ∧
      (step s c none).1.imageData = s.imageData ∧
      (step s c none).1.pointCloudData = s.pointCloudData) ∧
    (∀ (s : DriverState) (c : ℕ) (raw : Option (List ℚ)),
      (step s c raw).2.published = [] ∨
      (step s c raw).2.published = [Pub.image, Pub.pointCloud]) := by
  constructor
  · intro s c _
    have h1 : (step s c none).1 = (stepToggle s c).1 := by
      show (stepToggle (stepPublish s none).1 c).1 = _
      rw [stepPublish_none]
    refine ⟨?_, ?_, ?_⟩
    · rw [step_published]; simp
    · rw [h1, stepToggle_imageData]
    · rw [h1, stepToggle_pointCloudData]
  · intro s c raw
    rw [step_published]
    cases h : (s.isEnabled && raw.isSome) <;> simp

/-- Witness for C5: the active always-on initial state, ticked with a null
buffer, publishes nothing and keeps both buffers intact. -/
theorem C5_skipOnUnavailable_witness :
    (step (initState true (makeCameraInfo 2 1 1)).1 0 none).2.published = [] ∧
    (step (initState true (makeCameraInfo 2 1 1)).1 0 none).1.imageData =
      (initState true (makeCameraInfo 2 1 1)).1.imageData ∧
    (step (initState true (makeCameraInfo 2 1 1)).1 0 none).1.pointCloudData =
      (initState true (makeCameraInfo 2 1 1)).1.pointCloudData :=
  C5_skipOnUnavailable.1 (initState true (makeCameraInfo 2 1 1)).1 0 rfl

/-- C8: with `alwaysOn` set, initialization issues exactly one enable
command and marks the state active, and no later tick ever issues a
command, whatever the consumer counts and buffers; with `alwaysOn` unset,
initialization starts disabled and issues no command. -/
theorem C8_alwaysOnLifecycle :
    (∀ info : CameraInfo,
      (initState true info).2 = [Command.enable] ∧
      (initState true info).1.isEnabled = true ∧
      (initState false info).2 = [] ∧
      (initState false info).1.isEnabled = false) ∧
    (∀ (info : CameraInfo) (inputs : List (ℕ × Option (List ℚ))),
      ((runTicks (initState true info).1 inputs).2.flatMap
        StepOutput.commands) = []) := by
  refine ⟨fun info => ⟨rfl, rfl, rfl, rfl⟩, fun info inputs => ?_⟩
  exact runTicks_commands_of_alwaysOn inputs _ rfl

/-- C9: the internal `mIsEnabled` flag tracks the external sensor state: a
command is issued in a step exactly when the flag changes in that step
(enable for false→true, disable for true→false), and over any run from
initialization the final flag equals the sensor state reconstructed from
every command issued (initialization included), the external sensor
starting disabled. -/
theorem C9_enableInvariant :
    (∀ (s : DriverState) (c : ℕ) (raw : Option (List ℚ)),
      (step s c raw).2.commands =
        (if s.isEnabled = (step s c raw).1.isEnabled then []
         else if (step s c raw).1.isEnabled then [Command.enable]
         else [Command.disable])) ∧
    (∀ (alwaysOn : Bool) (info : CameraInfo)
        (inputs : List (ℕ × Option (List ℚ))),
      (runTicks (initState alwaysOn info).1 inputs).1.isEnabled =
        applyCommands (applyCommands false (initState alwaysOn info).2)
          ((runTicks (initState alwaysOn info).1 inputs).2.flatMap
            StepOutput.commands)) := by
  constructor
  · intro s c raw
    rw [step_commands, step_isEnabled, stepToggle_commands, stepPublish_isEnabled]
  · intro alwaysOn info inputs
    rw [runTicks_sensor, initState_isEnabled_eq]

/-! ## Calibration claims -/

/-- For the end-to-end scenario `fov = π/2`, the code's `tan(0.5 * fov)`
equals `1`, so the embedding's `tanHalfFov` parameter is `1` there. -/
lemma tanHalfFov_at_pi_div_two : Real.tan (Real.pi / 2 / 2) = 1 := by
  rw [show Real.pi / 2 / 2 = Real.pi / 4 by ring]
  exact Real.tan_pi_div_four

/-- C2: the calibration derived at `init` has
`fx = 0.5·width/tan(0.5·fov)`, `fy = 0.5·height/tan(0.5·fov)`,
`cx = width/2`, `cy = height/2` exactly, `fx = fy` iff `width = height`
(for positive geometry and `tan(0.5·fov) > 0`, i.e. `fov ∈ (0, π)`), and
the published record carries five zero distortion coefficients, a 3×3
identity rectification, `K = [[fx,0,cx],[0,fy,cy],[0,0,1]]` and
`P = [K | 0]`. -/
theorem C2_calibration :
    ∀ (w h : ℕ) (t : ℚ), 0 < w → 0 < h → 0 < t →
      focalLengthX w t = (1 / 2 : ℚ) * w / t ∧
      focalLengthY h t = (1 / 2 : ℚ) * h / t ∧
      principalPointX w = (w : ℚ) / 2 ∧
      principalPointY h = (h : ℚ) / 2 ∧
      (focalLengthX w t = focalLengthY h t ↔ w = h) ∧
      (makeCameraInfo w h t).d = [0, 0, 0, 0, 0] ∧
      (makeCameraInfo w h t).r = [1, 0, 0, 0, 1, 0, 0, 0, 1] ∧
      (makeCameraInfo w h t).k =
        [focalLengthX w t, 0, principalPointX w,
         0, focalLengthY h t, principalPointY h,
         0, 0, 1] ∧
      (makeCameraInfo w h t).p =
        [(makeCameraInfo w h t).k.getD 0 0, (makeCameraInfo w h t).k.getD 1 0,
         (makeCameraInfo w h t).k.getD 2 0, 0,
         (makeCameraInfo w h t).k.getD 3 0, (makeCameraInfo w h t).k.getD 4 0,
         (makeCameraInfo w h t).k.getD 5 0, 0,
         (makeCameraInfo w h t).k.getD 6 0, (makeCameraInfo w h t).k.getD 7 0,
         (makeCameraInfo w h t).k.getD 8 0, 0] := by
  intro w h t _ _ ht
  have htne : t ≠ 0 := ne_of_gt ht
  refine ⟨by rw [focalLengthX]; ring, by rw [focalLengthY]; ring, rfl, rfl,
    ?_, rfl, rfl, rfl, rfl⟩
  constructor
  · intro heq
    rw [focalLengthX, focalLengthY] at heq
    field_simp at heq
    exact_mod_cast heq
  · intro heq
    rw [heq, focalLengthX, focalLengthY]

/-- Witness for C2 at `width = 2`, `height = 3`, `tan(0.5·fov) = 1`. -/
theorem C2_calibration_witness :
    (focalLengthX 2 1 = focalLengthY 3 1 ↔ (2 : ℕ) = 3) ∧
    (makeCameraInfo 2 3 1).d = [0, 0, 0, 0, 0] :=
  ⟨(C2_calibration 2 3 1 (by norm_num) (by norm_num) (by norm_num)).2.2.2.2.1,
   (C2_calibration 2 3 1 (by norm_num) (by norm_num) (by norm_num)).2.2.2.2.2.1⟩

/-- Counterexample to C6 as stated: with `width = 2`, `height = 1`,
`tan(0.5·fov) = 1` (i.e. `fov = π/2`), the code derives `fy = 0.5`, not
`1.0`, so the claimed `fx = fy = 1.0` (and the claimed z-components `1.0`)
are false. -/
theorem C6_counterexample :
    ¬ (focalLengthX 2 1 = 1 ∧ focalLengthY 1 1 = 1 ∧
       principalPointX 2 = 1 ∧ principalPointY 1 = 1 / 2 ∧
       projectPointCloudInto (makeCameraInfo 2 1 1) [2, 2]
         (List.replicate 6 0) = [2, 2, 1, 2, 0, 1]) := by
  intro hc
  have h := hc.2.1
  rw [focalLengthY] at h
  norm_num at h

/-- C6 (amended): in the scenario `width = 2`, `height = 1`, `fov = π/2`
the code derives `fx = 1`, `fy = 0.5` (not `fx = fy = 1`), `cx = 1`,
`cy = 0.5`, and projecting the raw buffer `[2.0, 2.0]` yields
point 0 = `(2.0, 2.0, 2.0)` and point 1 = `(2.0, 0.0, 2.0)` (the
z-components are `2.0`, not `1.0`). -/
theorem C6_scenario :
    focalLengthX 2 1 = 1 ∧ focalLengthY 1 1 = 1 / 2 ∧
    principalPointX 2 = 1 ∧ principalPointY 1 = 1 / 2 ∧
    projectPointCloudInto (makeCameraInfo 2 1 1) [2, 2] (List.replicate 6 0)
      = [2, 2, 2, 2, 0, 2] := by
  refine ⟨by rw [focalLengthX]; norm_num, by rw [focalLengthY]; norm_num,
    by rw [principalPointX]; norm_num, by rw [principalPointY]; norm_num, ?_⟩
  norm_num [projectPointCloudInto, makeCameraInfo, projectPoint, writePoint,
    focalLengthX, focalLengthY, principalPointX, principalPointY, List.range_succ]
  rfl

/-! ## Depth-image byte layout -/

lemma wordToLEBytes_roundTrip (v : ℕ) (hv : v < 4294967296) :
    v % 256 + 256 * (v / 256 % 256) + 65536 * (v / 65536 % 256) +
      16777216 * (v / 16777216 % 256) = v := by
  omega

lemma encodeDepthImage_length (raw : List ℕ) :
    (encodeDepthImage raw).length = 4 * raw.length := by
  induction raw with
  | nil => rfl
  | cons v rest ih =>
      simp only [encodeDepthImage, List.flatMap_cons, List.length_append,
        List.length_cons] at *
      simp [wordToLEBytes, ih]
      omega

lemma encodeDepthImage_append (a b : List ℕ) :
    encodeDepthImage (a ++ b) = encodeDepthImage a ++ encodeDepthImage b := by
  simp [encodeDepthImage]

lemma decode_encodeDepthImage (raw : List ℕ) (h : ∀ v ∈ raw, v < 4294967296) :
    decodeDepthImage (encodeDepthImage raw) = raw := by
  induction raw with
  | nil => rfl
  | cons v rest ih =>
      have hv : v < 4294967296 := h v (by simp)
      have htail := ih (fun x hx => h x (by simp [hx]))
      have hstep : decodeDepthImage (encodeDepthImage (v :: rest)) =
          (v % 256 + 256 * (v / 256 % 256) + 65536 * (v / 65536 % 256) +
            16777216 * (v / 16777216 % 256)) ::
            decodeDepthImage (encodeDepthImage rest) := rfl
      rw [hstep, htail, wordToLEBytes_roundTrip v hv]

/-- C7: the depth-image artifact is a byte-for-byte little-endian copy of
the raw buffer: `4·width·height` bytes for `width·height` pixels, rows
concatenating independently (`4·width` bytes per row), and decoding the
artifact back to 32-bit pixel patterns is the identity on the raw
buffer. -/
theorem C7_depthImageRoundTrip :
    ∀ (w h : ℕ) (raw : List ℕ), raw.length = w * h →
      (∀ v ∈ raw, v < 4294967296) →
      (encodeDepthImage raw).length = 4 * (w * h) ∧
      decodeDepthImage (encodeDepthImage raw) = raw ∧
      (∀ rowA rowB : List ℕ,
        encodeDepthImage (rowA ++ rowB) =
          encodeDepthImage rowA ++ encodeDepthImage rowB) := by
  intro w h raw hlen hbound
  exact ⟨by rw [encodeDepthImage_length, hlen],
    decode_encodeDepthImage raw hbound,
    encodeDepthImage_append⟩

/-- Witness for C7 on the 1×2 buffer `[0, 4294967295]`. -/
theorem C7_depthImageRoundTrip_witness :
    (encodeDepthImage [0, 4294967295]).length = 4 * (1 * 2) ∧
    decodeDepthImage (encodeDepthImage [0, 4294967295]) = [0, 4294967295] :=
  ⟨(C7_depthImageRoundTrip 1 2 [0, 4294967295] rfl (by decide)).1,
   (C7_depthImageRoundTrip 1 2 [0, 4294967295] rfl (by decide)).2.1⟩

/-! ## Point-cloud projection: write characterization -/

/-- Fold the per-pixel writes over a list of linear indices, the point of
index `idx` given by `g idx`.  `projectPointCloudInto` is shown below to be
this fold over `List.range (width·height)`. -/
def writeSchedule (g : ℕ → ℚ × ℚ × ℚ) (idxs : List ℕ) (buf : List ℚ) : List ℚ :=
  idxs.foldl (fun b idx => writePoint b idx (g idx).1 (g idx).2.1 (g idx).2.2) buf

lemma writePoint_length (buf : List ℚ) (idx : ℕ) (x y z : ℚ) :
    (writePoint buf idx x y z).length = buf.length := by
  simp [writePoint]

lemma writeSchedule_length (g : ℕ → ℚ × ℚ × ℚ) :
    ∀ (idxs : List ℕ) (buf : List ℚ),
      (writeSchedule g idxs buf).length = buf.length := by
  intro idxs
  induction idxs with
  | nil => intro buf; rfl
  | cons idx rest ih =>
      intro buf
      show (writeSchedule g rest (writePoint buf idx _ _ _)).length = _
      rw [ih, writePoint_length]

lemma writeSchedule_append (g : ℕ → ℚ × ℚ × ℚ) (a b : List ℕ) (buf : List ℚ) :
    writeSchedule g (a ++ b) buf = writeSchedule g b (writeSchedule g a buf) := by
  simp [writeSchedule, List.foldl_append]

lemma writePoint_getD_ne (buf : List ℚ) (idx : ℕ) (x y z : ℚ) (m k : ℕ)
    (hk : k < 3) (hne : idx ≠ m) :
    (writePoint buf idx x y z).getD (m * 3 + k) 0 = buf.getD (m * 3 + k) 0 := by
  have h0 : idx * 3 ≠ m * 3 + k := by omega
  have h1 : idx * 3 + 1 ≠ m * 3 + k := by omega
  have h2 : idx * 3 + 2 ≠ m * 3 + k := by omega
  simp [writePoint, List.getD_eq_getElem?_getD, List.getElem?_set_ne, h0, h1, h2]

lemma writePoint_getD_self (buf : List ℚ) (idx : ℕ) (x y z : ℚ)
    (h : idx * 3 + 2 < buf.length) :
    (writePoint buf idx x y z).getD (idx * 3) 0 = x ∧
    (writePoint buf idx x y z).getD (idx * 3 + 1) 0 = y ∧
    (writePoint buf idx x y z).getD (idx * 3 + 2) 0 = z := by
  have l0 : idx * 3 < buf.length := by omega
  have l1 : idx * 3 + 1 < buf.length := by omega
  have n01 : idx * 3 ≠ idx * 3 + 1 := by omega
  have n02 : idx * 3 ≠ idx * 3 + 2 := by omega
  have n12 : idx * 3 + 1 ≠ idx * 3 + 2 := by omega
  refine ⟨?_, ?_, ?_⟩ <;>
    simp [writePoint, List.getD_eq_getElem?_getD, List.getElem?_set,
      n01, n02, n12, l0, l1, h, Ne.symm n01, Ne.symm n02, Ne.symm n12]

lemma writeSchedule_getD_not_mem (g : ℕ → ℚ × ℚ × ℚ) :
    ∀ (idxs : List ℕ) (buf : List ℚ) (m k : ℕ), k < 3 → m ∉ idxs →
      (writeSchedule g idxs buf).getD (m * 3 + k) 0 = buf.getD (m * 3 + k) 0 := by
  intro idxs
  induction idxs with
  | nil => intro buf m k _ _; rfl
  | cons idx rest ih =>
      intro buf m k hk hm
      have hne : idx ≠ m := fun hc => hm (hc ▸ List.mem_cons_self idx rest)
      have hrest : m ∉ rest := fun hc => hm (List.mem_cons_of_mem idx hc)
      show (writeSchedule g rest (writePoint buf idx _ _ _)).getD (m * 3 + k) 0 = _
      rw [ih _ m k hk hrest, writePoint_getD_ne _ _ _ _ _ _ _ hk hne]

lemma writeSchedule_range_getD (g : ℕ → ℚ × ℚ × ℚ) :
    ∀ (N : ℕ) (buf : List ℚ), 3 * N ≤ buf.length → ∀ m, m < N →
      (writeSchedule g (List.range N) buf).getD (m * 3) 0 = (g m).1 ∧
      (writeSchedule g (List.range N) buf).getD (m * 3 + 1) 0 = (g m).2.1 ∧
      (writeSchedule g (List.range N) buf).getD (m * 3 + 2) 0 = (g m).2.2 := by
  intro N
  induction N with
  | zero => intro buf _ m hm; exact absurd hm (by omega)
  | succ n ih =>
      intro buf hlen m hm
      rw [List.range_succ, writeSchedule_append]
      have hinner : writeSchedule g [n] (writeSchedule g (List.range n) buf) =
          writePoint (writeSchedule g (List.range n) buf) n
            (g n).1 (g n).2.1 (g n).2.2 := rfl
      rw [hinner]
      by_cases hmn : m = n
      · subst hmn
        have hl : m * 3 + 2 < (writeSchedule g (List.range m) buf).length := by
          rw [writeSchedule_length]; omega
        exact writePoint_getD_self _ _ _ _ _ hl
      · have hlt : m < n := by omega
        have hne : n ≠ m := fun hc => hmn hc.symm
        have h0 := writePoint_getD_ne (writeSchedule g (List.range n) buf) n
          (g n).1 (g n).2.1 (g n).2.2 m 0 (by omega) hne
        have h1 := writePoint_getD_ne (writeSchedule g (List.range n) buf) n
          (g n).1 (g n).2.1 (g n).2.2 m 1 (by omega) hne
        have h2 := writePoint_getD_ne (writeSchedule g (List.range n) buf) n
          (g n).1 (g n).2.1 (g n).2.2 m 2 (by omega) hne
        have ihm := ih buf (by omega) m hlt
        refine ⟨?_, ?_, ?_⟩
        · rw [show m * 3 = m * 3 + 0 from rfl] at h0 ⊢
          rw [h0]
          simpa using ihm.1
        · rw [h1]; exact ihm.2.1
        · rw [h2]; exact ihm.2.2

lemma foldl_congr_mem {α β : Type} (l : List α) (f g : β → α → β) :
    ∀ (b : β), (∀ x ∈ l, ∀ acc, f acc x = g acc x) →
      l.foldl f b = l.foldl g b := by
  induction l with
  | nil => intro b _; rfl
  | cons a rest ih =>
      intro b hfg
      show rest.foldl f (f b a) = rest.foldl g (g b a)
      rw [hfg a (by simp) b]
      exact ih _ (fun x hx acc => hfg x (by simp [hx]) acc)

lemma index_mod_div (w i j : ℕ) (hi : i < w) :
    (i + j * w) % w = i ∧ (i + j * w) / w = j := by
  have hw : 0 < w := Nat.lt_of_le_of_lt (Nat.zero_le i) hi
  constructor
  · rw [Nat.add_mul_mod_self_right, Nat.mod_eq_of_lt hi]
  · rw [Nat.add_mul_div_right i j hw, Nat.div_eq_of_lt hi]
    omega

lemma pointCloudReadIndices_eq_range (w h : ℕ) :
    pointCloudReadIndices w h = List.range (w * h) := by
  unfold pointCloudReadIndices
  induction h with
  | zero => simp
  | succ n ih =>
      rw [List.range_succ, List.flatMap_append, ih,
        show w * (n + 1) = w * n + w by ring, List.range_add]
      congr 1
      simp only [List.flatMap_cons, List.flatMap_nil, List.append_nil]
      exact List.map_congr_left (fun i _ => by rw [Nat.mul_comm w n, Nat.add_comm])

lemma projectPointCloudInto_eq_writeSchedule (info : CameraInfo)
    (image : List ℚ) (buf : List ℚ) :
    projectPointCloudInto info image buf =
      writeSchedule
        (fun idx => projectPoint info image (idx % info.width) (idx / info.width))
        (List.range (info.width * info.height)) buf := by
  rw [← pointCloudReadIndices_eq_range]
  unfold projectPointCloudInto pointCloudReadIndices
  generalize List.range info.height = js
  induction js generalizing buf with
  | nil => rfl
  | cons j rest ih =>
      simp only [List.foldl_cons, List.flatMap_cons, writeSchedule_append]
      rw [← ih]
      congr 1
      unfold writeSchedule
      rw [List.foldl_map]
      refine foldl_congr_mem _ _ _ _ (fun i hi acc => ?_)
      have hiw : i < info.width := List.mem_range.mp hi
      have hmod := index_mod_div info.width i j hiw
      dsimp only
      rw [hmod.1, hmod.2]

lemma idx_lt_of_pixel (w h i j : ℕ) (hi : i < w) (hj : j < h) :
    i + j * w < w * h :=
  calc i + j * w < w + j * w := Nat.add_lt_add_right hi (j * w)
    _ = (j + 1) * w := by ring
    _ ≤ h * w := Nat.mul_le_mul_right w (Nat.succ_le_of_lt hj)
    _ = w * h := Nat.mul_comm h w

/-! ## Claim theorems: point-cloud projection -/

/-- C1: for every geometry and raw buffer, the projection stores at linear
point index `i + j·width` the point with `x = rawBuffer[i + j·width]`
copied unchanged — for arbitrary values, with no clamping or filtering —
`y = -(i - cx)·x/fx`, `z = -(j - cy)·x/fy`, where `fx, fy, cx, cy` are the
calibration constants derived at `init`. -/
theorem C1_pointCloudProjection :
    ∀ (w h : ℕ) (t : ℚ) (image buf : List ℚ) (i j : ℕ),
      i < w → j < h → image.length = w * h → buf.length = 3 * (w * h) →
      (projectPointCloudInto (makeCameraInfo w h t) image buf).getD
          ((i + j * w) * 3) 0 = image.getD (i + j * w) 0 ∧
      (projectPointCloudInto (makeCameraInfo w h t) image buf).getD
          ((i + j * w) * 3 + 1) 0 =
        -((i : ℚ) - principalPointX w) * image.getD (i + j * w) 0 /
          focalLengthX w t ∧
      (projectPointCloudInto (makeCameraInfo w h t) image buf).getD
          ((i + j * w) * 3 + 2) 0 =
        -((j : ℚ) - principalPointY h) * image.getD (i + j * w) 0 /
          focalLengthY h t := by
  intro w h t image buf i j hi hj _ hbuf
  have hm : i + j * w < w * h := idx_lt_of_pixel w h i j hi hj
  have hbridge := projectPointCloudInto_eq_writeSchedule
    (makeCameraInfo w h t) image buf
  have hdims : (makeCameraInfo w h t).width * (makeCameraInfo w h t).height
      = w * h := rfl
  rw [hdims] at hbridge
  have hchar := writeSchedule_range_getD
    (fun idx => projectPoint (makeCameraInfo w h t) image
      (idx % (makeCameraInfo w h t).width) (idx / (makeCameraInfo w h t).width))
    (w * h) buf (by omega) (i + j * w) hm
  have hg : (fun idx => projectPoint (makeCameraInfo w h t) image
        (idx % (makeCameraInfo w h t).width) (idx / (makeCameraInfo w h t).width))
        (i + j * w)
      = projectPoint (makeCameraInfo w h t) image i j := by
    dsimp only
    rw [show (makeCameraInfo w h t).width = w from rfl,
      (index_mod_div w i j hi).1, (index_mod_div w i j hi).2]
  have hcomp : projectPoint (makeCameraInfo w h t) image i j =
      (image.getD (i + j * w) 0,
       -((i : ℚ) - principalPointX w) * image.getD (i + j * w) 0 /
         focalLengthX w t,
       -((j : ℚ) - principalPointY h) * image.getD (i + j * w) 0 /
         focalLengthY h t) := rfl
  rw [hg, hcomp] at hchar
  rw [hbridge]
  exact hchar

/-- Witness for C1 at pixel `(1, 0)` of the 2×1 scenario buffer. -/
theorem C1_pointCloudProjection_witness :
    (projectPointCloudInto (makeCameraInfo 2 1 1) [2, 2]
        (List.replicate 6 0)).getD ((1 + 0 * 2) * 3) 0 =
      ([2, 2] : List ℚ).getD (1 + 0 * 2) 0 ∧
    (projectPointCloudInto (makeCameraInfo 2 1 1) [2, 2]
        (List.replicate 6 0)).getD ((1 + 0 * 2) * 3 + 1) 0 =
      -((1 : ℚ) - principalPointX 2) * ([2, 2] : List ℚ).getD (1 + 0 * 2) 0 /
        focalLengthX 2 1 ∧
    (projectPointCloudInto (makeCameraInfo 2 1 1) [2, 2]
        (List.replicate 6 0)).getD ((1 + 0 * 2) * 3 + 2) 0 =
      -((0 : ℚ) - principalPointY 1) * ([2, 2] : List ℚ).getD (1 + 0 * 2) 0 /
        focalLengthY 1 1 :=
  C1_pointCloudProjection 2 1 1 [2, 2] (List.replicate 6 0) 1 0
    (by norm_num) (by norm_num) rfl (by simp)

/-- C10: every read index `i + j·width` of the projection loop lies below
`width·height` (the read schedule is exactly `range (width·height)`), every
float write offset `idx*3 + k` lies below the `3·width·height` floats
allocated at `init`, and the embedded projection is a total function that
returns a buffer of unchanged length. -/
theorem C10_inBounds :
    ∀ (w h : ℕ),
      pointCloudReadIndices w h = List.range (w * h) ∧
      (∀ n ∈ pointCloudReadIndices w h, n < w * h) ∧
      (∀ n ∈ pointCloudWriteIndices w h, n < 3 * (w * h)) ∧
      (∀ (t : ℚ) (image buf : List ℚ),
        (projectPointCloudInto (makeCameraInfo w h t) image buf).length
          = buf.length) := by
  intro w h
  refine ⟨pointCloudReadIndices_eq_range w h, ?_, ?_, ?_⟩
  · intro n hn
    rw [pointCloudReadIndices_eq_range, List.mem_range] at hn
    exact hn
  · intro n hn
    unfold pointCloudWriteIndices at hn
    rw [List.mem_flatMap] at hn
    obtain ⟨idx, hidx, hn⟩ := hn
    rw [pointCloudReadIndices_eq_range, List.mem_range] at hidx
    have hn3 : n = idx * 3 ∨ n = idx * 3 + 1 ∨ n = idx * 3 + 2 := by
      simpa using hn
    omega
  · intro t image buf
    rw [projectPointCloudInto_eq_writeSchedule, writeSchedule_length]

/-- Witness for C10 with `width = 2`, `height = 1`: read index `1` and
write offset `5` are in bounds. -/
theorem C10_inBounds_witness :
    (1 : ℕ) < 2 * 1 ∧ (5 : ℕ) < 3 * (2 * 1) :=
  ⟨(C10_inBounds 2 1).2.1 1 (by decide), (C10_inBounds 2 1).2.2.1 5 (by decide)⟩
